import Mathlib

/-!
Verification of the polling/voting front-end: a shallow embedding of the two
React applications in this repository (the tab-based app in
`src/unnamed/part_000` and the page-based app in
`src/my-voting-app/src/App.jsx`), with theorems settling the claims about the
Results Renderer, the form controllers, the view router and the session store.

Network effects are embedded by passing the outcome of each `fetch` (either a
promise rejection or a parsed response) as an explicit argument; controllers
become pure state transformers.  A controller whose `try`/`catch` swallows a
failure is a total function into its state; a controller without a `catch`
returns `Except`, with `Except.error` standing for an exception escaping the
controller (an unhandled promise rejection).
-/

namespace Dapp

/-- JS `x || y` for a string-or-absent field: `undefined` and the empty string
are falsy, any other string is returned as-is. -/
def jsOr (x : Option String) (y : String) : String :=
  match x with
  | some s => if s = "" then y else s
  | none => y

/-- The message of `new Error(data.error)`: a missing (`undefined`) argument
and the empty string both yield the empty message. -/
def errField (x : Option String) : String := x.getD ""

/-- The `{ text, isError }` Message slot used by both apps. -/
structure Msg where
  text : String
  isError : Bool
deriving DecidableEq, Repr

/-- Outcome of one `fetch(...).then(res => res.json())` chain: the promise
either rejects (network/transport failure) or resolves with a parsed body. -/
inductive FetchOutcome (α : Type) where
  | reject (e : String)
  | resolve (d : α)
deriving DecidableEq, Repr

/-! ## Results Renderer (`ResultsDisplay`, src/unnamed/part_000 lines 15-41) -/

/-- The `resultsData` prop of `ResultsDisplay`: question, option→votes
mapping (an ordered object, embedded as an association list), total votes and
activity flag. -/
structure ResultsData where
  question : String
  results : List (String × Nat)
  total_votes : Nat
  is_active : Bool
deriving DecidableEq, Repr

/-- The displayed percentage, in tenths of a percent:
`total_votes > 0 ? ((votes / total_votes) * 100).toFixed(1) : 0`.
`toFixed(1)` keeps one decimal digit, rounding to the nearest tenth with ties
away from zero; over the exact rationals this is
`(votes * 1000 * 2 + total) / (2 * total)` in integer division.  The zero-total
branch is the literal `0`. -/
def percentTenths (votes total : Nat) : Nat :=
  if 0 < total then (votes * 1000 * 2 + total) / (2 * total) else 0

/-- The list rendered by `ResultsDisplay`: one `(option, votes, percentage)`
item per entry of `results`. -/
def resultItems (d : ResultsData) : List (String × Nat × Nat) :=
  d.results.map (fun p => (p.1, p.2, percentTenths p.2 d.total_votes))

/-! ## Tab-based app state (src/unnamed/part_000) -/

/-- The `creatorInfo` payload returned by `/create_poll`. -/
structure CreatorInfo where
  poll_id : String
  creator_id : String
deriving DecidableEq, Repr

/-- Body + HTTP status of the `/poll_status/{id}` response: `ok` is
`res.ok`, the other fields are the parsed JSON body. -/
structure PollStatusResp where
  ok : Bool
  errorField : Option String
  question : String
  options : List String
  is_active : Bool
deriving DecidableEq, Repr

/-- Body + HTTP status of the `/results` response. -/
structure ResultsResp where
  ok : Bool
  errorField : Option String
  payload : ResultsData
deriving DecidableEq, Repr

/-- Body + HTTP status of the `/vote` response. -/
structure VoteResp where
  ok : Bool
  errorField : Option String
  message : String
deriving DecidableEq, Repr

/-- Body + HTTP status of the `/end_poll` and `/results` responses handled by
`handleManageAction`. -/
structure ManageResp where
  ok : Bool
  errorField : Option String
  messageField : Option String
  payload : ResultsData
deriving DecidableEq, Repr

/-- All `useState` slots of the tab-based `App` in src/unnamed/part_000. -/
structure TabState where
  view : String
  message : Msg
  question : String
  options : String
  voters : String
  creatorInfo : Option CreatorInfo
  managePollId : String
  creatorId : String
  creatorResults : Option ResultsData
  voterPollId : String
  voterId : String
  pollData : Option PollStatusResp
  voterResults : Option ResultsData
  selectedOption : String
deriving DecidableEq, Repr

/-- `clearMessages` (part_000 lines 68-74): resets the message and the four
result/poll payload slots. -/
def clearMessages (s : TabState) : TabState :=
  { s with message := ⟨"", false⟩, creatorInfo := none, creatorResults := none,
           voterResults := none, pollData := none }

/-- `handleSetView` (part_000 lines 76-79): clear transient state, then switch
the tab. -/
def handleSetView (s : TabState) (newView : String) : TabState :=
  { clearMessages s with view := newView }

/-- Whether the tab app currently shows the voting form: the option list with
the Cast Your Vote button renders exactly when `pollData` is non-null. -/
def tabVotingFormShown (s : TabState) : Bool := s.pollData.isSome

/-- `handleAccessPoll` (part_000 lines 125-149) as a state transformer.
`st` is the outcome of the `/poll_status` fetch, `rr` of the conditional
`/results` fetch.  The second component counts how many `/results` requests
were issued. -/
def handleAccessPoll (s : TabState) (st : FetchOutcome PollStatusResp)
    (rr : FetchOutcome ResultsResp) : TabState × Nat :=
  let s1 := clearMessages s
  match st with
  | .reject e => ({ s1 with message := ⟨e, true⟩ }, 0)
  | .resolve d =>
    if d.ok = false then
      ({ s1 with message := ⟨jsOr d.errorField "Could not fetch poll status.", true⟩ }, 0)
    else if d.is_active then
      ({ s1 with pollData := some d }, 0)
    else
      let s2 := { s1 with message := ⟨"This poll has ended. Fetching results...", false⟩ }
      match rr with
      | .reject e => ({ s2 with message := ⟨e, true⟩ }, 1)
      | .resolve r2 =>
        if r2.ok = false then
          ({ s2 with message := ⟨jsOr r2.errorField "Could not fetch results.", true⟩ }, 1)
        else
          ({ s2 with voterResults := some r2.payload }, 1)

/-- `handleVote` (part_000 lines 151-170): client-side selection check, then
the `/vote` call; on success the poll data is hidden and the server message
shown. -/
def handleVoteTab (s : TabState) (r : FetchOutcome VoteResp) : TabState :=
  let s1 := clearMessages s
  if s.selectedOption = "" then
    { s1 with message := ⟨"Please select an option to vote.", true⟩ }
  else
    match r with
    | .reject e => { s1 with message := ⟨e, true⟩ }
    | .resolve d =>
      if d.ok = false then
        { s1 with message := ⟨jsOr d.errorField "Failed to cast vote.", true⟩ }
      else
        { s1 with pollData := none, message := ⟨d.message, false⟩ }

/-- `handleManageAction` (part_000 lines 101-123): `/end_poll` or `/results`
depending on the action tag; error text is `data.error || data.message ||`
an action-keyed fallback. -/
def handleManageAction (s : TabState) (action : String)
    (r : FetchOutcome ManageResp) : TabState :=
  let s1 := clearMessages s
  match r with
  | .reject e => { s1 with message := ⟨e, true⟩ }
  | .resolve d =>
    if d.ok = false then
      { s1 with message :=
          ⟨jsOr d.errorField (jsOr d.messageField ("Failed to " ++ action ++ " poll.")), true⟩ }
    else if action = "end" then
      { s1 with message := ⟨errField d.messageField, false⟩ }
    else
      { s1 with creatorResults := some d.payload }

/-! ## Page-based app (src/my-voting-app/src/App.jsx) -/

/-- The logged-in user object `{ username, role }`. -/
structure User where
  username : String
  role : String
deriving DecidableEq, Repr

/-- Top-level `App` state: `page`, `user`, `activePollId`. -/
structure AppState where
  page : String
  user : Option User
  activePollId : Option String
deriving DecidableEq, Repr

/-- The screens `renderPage` may return. -/
inductive Screen where
  | creatorDashboard
  | createPollForm
  | pollAnalytics
  | voterDashboard
  | authLogin
  | authSignup
  | homePage
deriving DecidableEq, Repr

/-- The anonymous `switch (page)` at the bottom of `renderPage`. -/
def anonymousSwitch (page : String) : Screen :=
  if page = "login" then .authLogin
  else if page = "signup" then .authSignup
  else .homePage

/-- `renderPage` (App.jsx lines 72-97): creators switch over `page` with a
`creatorDashboard` default; voters always get `VoterDashboard`; anyone else
falls through to the anonymous switch. -/
def renderPage (user : Option User) (page : String) : Screen :=
  match user with
  | some u =>
    if u.role = "creator" then
      if page = "creatorDashboard" then .creatorDashboard
      else if page = "createPoll" then .createPollForm
      else if page = "analytics" then .pollAnalytics
      else .creatorDashboard
    else if u.role = "voter" then .voterDashboard
    else anonymousSwitch page
  | none => anonymousSwitch page

/-- `navigateTo(newPage, pollId = null)` (App.jsx lines 61-64). -/
def navigateTo (s : AppState) (newPage : String) (pollId : Option String) : AppState :=
  { s with activePollId := pollId, page := newPage }

/-- What the startup effect finds in the `user` storage slot: nothing, a
string that `JSON.parse` turns into a user object, or a string on which
`JSON.parse` throws. -/
inductive StoredSlot where
  | absent
  | wellFormed (u : User)
  | malformed
deriving DecidableEq, Repr

/-- Session/view state produced by startup. -/
structure StartupState where
  user : Option User
  page : String
deriving DecidableEq, Repr

/-- The startup `useEffect` (App.jsx lines 46-53).  There is no `try`/`catch`
around `JSON.parse`, so a malformed stored value makes the effect throw:
`Except.error` marks the uncaught exception. -/
def startupRestore : StoredSlot → Except String StartupState
  | .absent => .ok ⟨none, "home"⟩
  | .wellFormed u =>
    .ok ⟨some u, if u.role = "creator" then "creatorDashboard" else "voterDashboard"⟩
  | .malformed => .error "SyntaxError: JSON.parse: unexpected token"

/-- `AuthPage`'s `/signup` or `/login` response: `ok` and `status` come from
the `Response`, the rest is the parsed body. -/
structure AuthResp where
  ok : Bool
  status : Nat
  errorField : Option String
  messageField : Option String
  user : Option User
deriving DecidableEq, Repr

/-- The observable outcome of `handleSubmit` in `AuthPage`: the message slot
after the call, the page navigated to (if any), and the user handed to
`onLoginSuccess` (if any). -/
structure AuthOutcome where
  message : Msg
  navTarget : Option String
  loggedInUser : Option User
deriving DecidableEq, Repr

/-- `handleSubmit` (App.jsx lines 158-184).  A non-ok response throws
`data.error || ⟨HTTP error! status: ...⟩`; the catch renders it in the
Message slot. -/
def handleSubmitAuth (isSignup : Bool) (prev : Msg) (r : FetchOutcome AuthResp) :
    AuthOutcome :=
  match r with
  | .reject e => ⟨⟨e, true⟩, none, none⟩
  | .resolve d =>
    if d.ok = false then
      ⟨⟨jsOr d.errorField ("HTTP error! status: " ++ toString d.status), true⟩, none, none⟩
    else if isSignup then
      ⟨⟨"Signup successful! Please log in.", false⟩, some "login", none⟩
    else
      ⟨prev, none, d.user⟩

/-- `CreatePollForm` field state (App.jsx lines 325-333). -/
structure CreateFormState where
  question : String
  options : String
  voterInputMethod : String
  votersText : String
  votersFile : Option String
  startTime : String
  endTime : String
deriving DecidableEq, Repr

/-- What a submission of the creation form does before/instead of the network
call: either a client-side validation error, or a request whose `FormData`
carries the listed field names. -/
inductive CreatePollAction where
  | validationError (m : Msg)
  | send (fields : List String)
deriving DecidableEq, Repr

/-- The six fields always appended to the `FormData` (App.jsx lines 338-344). -/
def baseFormFields : List String :=
  ["question", "options", "start_time", "end_time", "creator_username", "voter_input_method"]

/-- `handleCreatePoll` (App.jsx lines 335-354, up to the fetch): `manual`
appends `voters_text`; otherwise a missing file short-circuits with an error
Message, and a present file appends `voters_file`. -/
def handleCreatePollSubmit (s : CreateFormState) : CreatePollAction :=
  if s.voterInputMethod = "manual" then
    .send (baseFormFields ++ ["voters_text"])
  else
    match s.votersFile with
    | none => .validationError ⟨"Please select a CSV file to upload.", true⟩
    | some _ => .send (baseFormFields ++ ["voters_file"])

/-- Number of network calls an action performs: the validation error returns
before `fetch`. -/
def createNetworkCalls : CreatePollAction → Nat
  | .validationError _ => 0
  | .send _ => 1

/-- A poll row of the `/my_polls` listing. -/
structure PollSummary where
  poll_id : String
  question : String
  start_time : Int
  end_time : Int
  is_active : Bool
deriving DecidableEq, Repr

/-- `getStatus` (App.jsx lines 268-274): `Closed` when not active, else
`Ended` when `now > end`, else `Active`; returns the badge text and color. -/
def getStatus (now : Int) (p : PollSummary) : String × String :=
  if p.is_active = false then ("Closed", "red")
  else if p.end_time < now then ("Ended", "gray")
  else ("Active", "green")

/-- `fetchPolls` (App.jsx lines 235-239): no `res.ok` check and no
`try`/`catch`; a rejected fetch escapes the controller. -/
def fetchPollsEffect (r : FetchOutcome (List PollSummary)) :
    Except String (List PollSummary) :=
  match r with
  | .reject e => .error e
  | .resolve d => .ok d

/-- The `/analytics/{pollId}` payload. -/
structure AnalyticsData where
  question : String
  results : List (String × Nat)
  total_votes : Nat
  total_voters : Nat
  is_active : Bool
  start_time : Int
  end_time : Int
deriving DecidableEq, Repr

/-- `fetchAnalytics` (App.jsx lines 422-428): on resolution it stores the data
and clears `isLoading`; there is no `try`/`catch`, so a rejection escapes. -/
def fetchAnalyticsEffect (r : FetchOutcome AnalyticsData) :
    Except String (Option AnalyticsData × Bool) :=
  match r with
  | .reject e => .error e
  | .resolve d => .ok (some d, false)

/-- Whether a controller embedding lets an exception escape (an unhandled
promise rejection in the browser). -/
def uncaughtFailure {α : Type} : Except String α → Bool
  | .error _ => true
  | .ok _ => false

/-- `VoterDashboard` field state (App.jsx lines 530-535). -/
structure VoterDashState where
  pollId : String
  aadhar : String
  pollData : Option PollStatusResp
  selectedOption : String
  message : Msg
deriving DecidableEq, Repr

/-- `handleFetchPoll` (App.jsx lines 537-549): fetch `/poll_status` and store
the body, whatever `is_active` says.  The second component counts `/results`
requests issued: the function makes none. -/
def handleFetchPoll (s : VoterDashState) (r : FetchOutcome PollStatusResp) :
    VoterDashState × Nat :=
  let s1 := { s with message := ⟨"", false⟩, pollData := none }
  match r with
  | .reject e => ({ s1 with message := ⟨e, true⟩ }, 0)
  | .resolve d =>
    if d.ok = false then ({ s1 with message := ⟨errField d.errorField, true⟩ }, 0)
    else ({ s1 with pollData := some d }, 0)

/-- Whether `VoterDashboard` shows the voting form: the form renders exactly
when `pollData` is present and `pollData.is_active` (otherwise the
poll-inactive notice or the find-poll form is shown). -/
def votingFormShown (s : VoterDashState) : Bool :=
  match s.pollData with
  | some d => d.is_active
  | none => false

/-- `handleVote` (App.jsx lines 551-568): on success show the server message,
clear the poll detail and both id fields; a non-ok response throws
`new Error(data.error)` and the catch renders its message. -/
def handleVoteVD (s : VoterDashState) (r : FetchOutcome VoteResp) : VoterDashState :=
  match r with
  | .reject e => { s with message := ⟨e, true⟩ }
  | .resolve d =>
    if d.ok = false then { s with message := ⟨errField d.errorField, true⟩ }
    else { s with message := ⟨d.message, false⟩, pollData := none, pollId := "", aadhar := "" }

/-! ## Theorems -/

/-- `toFixed(1)` over exact rationals: for a positive total, the integer-
division form used in `percentTenths` is the rounding of
`votes * 1000 / total` to the nearest integer (ties up). -/
theorem natCast_div_eq_floor (a b : Nat) :
    ((a / b : Nat) : ℤ) = ⌊((a : ℚ)) / ((b : ℚ))⌋ := by
  have h : ((a : ℚ)) = (((a : ℤ) : ℚ)) := by push_cast; ring
  rw [h, show ((b : ℚ)) = (((b : ℕ) : ℚ)) from rfl, Rat.floor_intCast_div_natCast]
  exact Int.natCast_div a b

theorem percentTenths_eq_round (v t : Nat) (ht : 0 < t) :
    (percentTenths v t : ℤ) = round ((v * 1000 : ℚ) / t) := by
  have ht0 : (t : ℚ) ≠ 0 := Nat.cast_ne_zero.mpr (Nat.pos_iff_ne_zero.mp ht)
  rw [round_eq]
  have hx : (v * 1000 : ℚ) / t + 1 / 2 =
      ((v * 1000 * 2 + t : Nat) : ℚ) / ((2 * t : Nat) : ℚ) := by
    push_cast
    rw [div_add_div _ _ ht0 (by norm_num : (2 : ℚ) ≠ 0)]
    congr 1
    · ring
    · ring
  rw [hx, ← natCast_div_eq_floor]
  simp [percentTenths, ht]

/-- C1: the Results Renderer computes each displayed percentage as
`votes / totalVotes * 100` rounded to one decimal place (stated in tenths of
a percent: the displayed value is `round (votes * 1000 / totalVotes)` tenths),
the percentage is 0 whenever `totalVotes = 0`, and on the mapping
`{A:1, B:1}` with `totalVotes = 2` both options display 50.0 (500 tenths). -/
theorem resultsDisplay_percentage :
    (∀ v t : Nat, 0 < t → (percentTenths v t : ℤ) = round ((v * 1000 : ℚ) / t)) ∧
    (∀ d : ResultsData, d.total_votes = 0 → ∀ item ∈ resultItems d, item.2.2 = 0) ∧
    resultItems ⟨"Q", [("A", 1), ("B", 1)], 2, false⟩ = [("A", 1, 500), ("B", 1, 500)] := by
  refine ⟨percentTenths_eq_round, ?_, by decide⟩
  intro d hd item hitem
  rcases List.mem_map.mp hitem with ⟨p, _, rfl⟩
  simp [percentTenths, hd]

/-- Witness for C1 at concrete inputs. -/
theorem resultsDisplay_percentage_witness :
    (percentTenths 1 2 : ℤ) = round ((1 * 1000 : ℚ) / 2) ∧
    (∀ item ∈ resultItems ⟨"Q", [("A", 3)], 0, true⟩, item.2.2 = 0) :=
  ⟨resultsDisplay_percentage.1 1 2 (by decide),
   resultsDisplay_percentage.2.1 ⟨"Q", [("A", 3)], 0, true⟩ rfl⟩

/-- C2 counterexample: in the page-based app, a voter accessing a poll whose
status resolves with `is_active = false` triggers zero follow-up results
requests, not exactly one, and no results are displayed. -/
theorem accessPoll_no_results_fetch_cex :
    (handleFetchPoll ⟨"p1", "a", none, "", ⟨"", false⟩⟩
        (.resolve ⟨true, none, "Q?", ["A", "B"], false⟩)).2 ≠ 1 ∧
    (handleFetchPoll ⟨"p1", "a", none, "", ⟨"", false⟩⟩
        (.resolve ⟨true, none, "Q?", ["A", "B"], false⟩)).2 = 0 := by
  constructor
  · decide
  · rfl

/-- C2 (amended): in the tab-based app's `handleAccessPoll`, a fetched status
with `is_active = false` issues exactly one follow-up `/results` request,
never shows the voting form, and displays the results when that request
succeeds; with `is_active = true` the voting form is shown and no results
request is made.  In the page-based app's `handleFetchPoll`, no results
request is ever issued; the voting form is likewise never shown for an
inactive poll, and is shown for an active one. -/
theorem accessPoll_two_step :
    ∀ (s : TabState) (d : PollStatusResp) (rr : FetchOutcome ResultsResp)
      (sv : VoterDashState),
      d.ok = true →
      (d.is_active = false →
        (handleAccessPoll s (.resolve d) rr).2 = 1 ∧
        tabVotingFormShown (handleAccessPoll s (.resolve d) rr).1 = false ∧
        (∀ r2, rr = .resolve r2 → r2.ok = true →
          (handleAccessPoll s (.resolve d) rr).1.voterResults = some r2.payload)) ∧
      (d.is_active = true →
        (handleAccessPoll s (.resolve d) rr).2 = 0 ∧
        tabVotingFormShown (handleAccessPoll s (.resolve d) rr).1 = true) ∧
      ((handleFetchPoll sv (.resolve d)).2 = 0 ∧
        (d.is_active = false → votingFormShown (handleFetchPoll sv (.resolve d)).1 = false) ∧
        (d.is_active = true → votingFormShown (handleFetchPoll sv (.resolve d)).1 = true)) := by
  intro s d rr sv hok
  have hok' : ¬ d.ok = false := by simp [hok]
  refine ⟨?_, ?_, ?_⟩
  · intro hina
    refine ⟨?_, ?_, ?_⟩
    · simp only [handleAccessPoll, hok', if_false, hina]
      cases rr with
      | reject e => rfl
      | resolve r2 => by_cases h2 : r2.ok = false <;> simp [h2]
    · simp only [handleAccessPoll, hok', if_false, hina, tabVotingFormShown]
      cases rr with
      | reject e => simp [clearMessages]
      | resolve r2 =>
        by_cases h2 : r2.ok = false <;> simp [h2, clearMessages]
    · intro r2 hrr h2
      subst hrr
      simp [handleAccessPoll, hok', hina, h2, clearMessages]
  · intro hact
    constructor
    · simp [handleAccessPoll, hok', hact]
    · simp [handleAccessPoll, hok', hact, tabVotingFormShown]
  · refine ⟨?_, ?_, ?_⟩
    · simp [handleFetchPoll, hok']
    · intro hina
      simp [handleFetchPoll, hok', votingFormShown, hina]
    · intro hact
      simp [handleFetchPoll, hok', votingFormShown, hact]

/-- Witness for the amended C2 at concrete inputs. -/
theorem accessPoll_two_step_witness :
    (handleAccessPoll ⟨"voter", ⟨"", false⟩, "", "", "", none, "", "", none, "p1", "v1",
        none, none, ""⟩
      (.resolve ⟨true, none, "Q?", ["A", "B"], false⟩)
      (.resolve ⟨true, none, ⟨"Q?", [("A", 1)], 1, false⟩⟩)).2 = 1 ∧
    (handleFetchPoll ⟨"p1", "a", none, "", ⟨"", false⟩⟩
      (.resolve ⟨true, none, "Q?", ["A", "B"], true⟩)).2 = 0 := by
  have h := accessPoll_two_step
    ⟨"voter", ⟨"", false⟩, "", "", "", none, "", "", none, "p1", "v1", none, none, ""⟩
    ⟨true, none, "Q?", ["A", "B"], false⟩
    (.resolve ⟨true, none, ⟨"Q?", [("A", 1)], 1, false⟩⟩)
    ⟨"p1", "a", none, "", ⟨"", false⟩⟩ rfl
  have h2 := accessPoll_two_step
    ⟨"voter", ⟨"", false⟩, "", "", "", none, "", "", none, "p1", "v1", none, none, ""⟩
    ⟨true, none, "Q?", ["A", "B"], true⟩
    (.resolve ⟨true, none, ⟨"Q?", [("A", 1)], 1, false⟩⟩)
    ⟨"p1", "a", none, "", ⟨"", false⟩⟩ rfl
  exact ⟨(h.1 rfl).1, (h2.2.2).1⟩

/-- C3: on every submission of the poll-creation form, any outgoing request
carries exactly one of `voters_text` / `voters_file`, never both; and with
`voterInputMethod = csv` and no file selected, an error Message is set and
zero network calls are made. -/
theorem createPoll_exclusive_attachment :
    ∀ s : CreateFormState,
      (∀ fields, handleCreatePollSubmit s = .send fields →
        (("voters_text" ∈ fields ∧ "voters_file" ∉ fields) ∨
         ("voters_file" ∈ fields ∧ "voters_text" ∉ fields))) ∧
      (s.voterInputMethod = "csv" → s.votersFile = none →
        handleCreatePollSubmit s = .validationError ⟨"Please select a CSV file to upload.", true⟩ ∧
        createNetworkCalls (handleCreatePollSubmit s) = 0) := by
  intro s
  constructor
  · intro fields hsend
    by_cases hm : s.voterInputMethod = "manual"
    · left
      simp only [handleCreatePollSubmit, hm, if_true, CreatePollAction.send.injEq] at hsend
      subst hsend
      constructor <;> decide
    · right
      cases hf : s.votersFile with
      | none => simp [handleCreatePollSubmit, hm, hf] at hsend
      | some f =>
        simp only [handleCreatePollSubmit, hm, if_false, hf, CreatePollAction.send.injEq] at hsend
        subst hsend
        constructor <;> decide
  · intro hcsv hf
    have hm : ¬ s.voterInputMethod = "manual" := by
      rw [hcsv]; decide
    constructor
    · simp [handleCreatePollSubmit, hm, hf]
    · simp [handleCreatePollSubmit, hm, hf, createNetworkCalls]

/-- Witness for C3 at concrete form states. -/
theorem createPoll_exclusive_attachment_witness :
    (("voters_text" ∈ baseFormFields ++ ["voters_text"] ∧
      "voters_file" ∉ baseFormFields ++ ["voters_text"]) ∨
     ("voters_file" ∈ baseFormFields ++ ["voters_text"] ∧
      "voters_text" ∉ baseFormFields ++ ["voters_text"])) ∧
    handleCreatePollSubmit ⟨"Q", "A,B", "csv", "", none, "s", "e"⟩ =
      .validationError ⟨"Please select a CSV file to upload.", true⟩ :=
  ⟨(createPoll_exclusive_attachment ⟨"Q", "A,B", "manual", "ids", none, "s", "e"⟩).1
      (baseFormFields ++ ["voters_text"]) rfl,
   ((createPoll_exclusive_attachment ⟨"Q", "A,B", "csv", "", none, "s", "e"⟩).2 rfl rfl).1⟩

/-- C4: in both apps, a vote submission answered with success clears the
poll-detail state (so the option list is no longer shown) without any page
navigation, and the Message shown is the server's confirmation message
verbatim, as a non-error. -/
theorem vote_success_clears_poll_detail :
    ∀ (s : TabState) (sv : VoterDashState) (d : VoteResp),
      d.ok = true →
      (s.selectedOption ≠ "" →
        (handleVoteTab s (.resolve d)).pollData = none ∧
        (handleVoteTab s (.resolve d)).message = ⟨d.message, false⟩ ∧
        (handleVoteTab s (.resolve d)).view = s.view) ∧
      ((handleVoteVD sv (.resolve d)).pollData = none ∧
       (handleVoteVD sv (.resolve d)).message = ⟨d.message, false⟩) := by
  intro s sv d hok
  have hok' : ¬ d.ok = false := by simp [hok]
  constructor
  · intro hsel
    refine ⟨?_, ?_, ?_⟩ <;> simp [handleVoteTab, hsel, hok', clearMessages]
  · constructor <;> simp [handleVoteVD, hok']

/-- Witness for C4 at concrete inputs. -/
theorem vote_success_clears_poll_detail_witness :
    (handleVoteTab ⟨"voter", ⟨"", false⟩, "", "", "", none, "", "", none, "p1", "v1",
        some ⟨true, none, "Q?", ["A"], true⟩, none, "A"⟩
      (.resolve ⟨true, none, "Vote recorded"⟩)).pollData = none ∧
    (handleVoteVD ⟨"p1", "a", some ⟨true, none, "Q?", ["A"], true⟩, "A", ⟨"", false⟩⟩
      (.resolve ⟨true, none, "Vote recorded"⟩)).message = ⟨"Vote recorded", false⟩ := by
  have h := vote_success_clears_poll_detail
    ⟨"voter", ⟨"", false⟩, "", "", "", none, "", "", none, "p1", "v1",
      some ⟨true, none, "Q?", ["A"], true⟩, none, "A"⟩
    ⟨"p1", "a", some ⟨true, none, "Q?", ["A"], true⟩, "A", ⟨"", false⟩⟩
    ⟨true, none, "Vote recorded"⟩ rfl
  exact ⟨(h.1 (by decide)).1, h.2.2⟩

/-- C5: the derived poll status is a function of `is_active` and the current
time versus `end_time`, with precedence Closed over Ended over Active:
Closed whenever `is_active` is false, Ended when active and `now` is after
`end_time`, Active otherwise. -/
theorem getStatus_precedence :
    ∀ (now : Int) (p : PollSummary),
      (p.is_active = false → getStatus now p = ("Closed", "red")) ∧
      (p.is_active = true → p.end_time < now → getStatus now p = ("Ended", "gray")) ∧
      (p.is_active = true → ¬ p.end_time < now → getStatus now p = ("Active", "green")) := by
  intro now p
  refine ⟨?_, ?_, ?_⟩
  · intro h; simp [getStatus, h]
  · intro h hlt; simp [getStatus, h, hlt]
  · intro h hlt; simp [getStatus, h, hlt]

/-- Witness for C5 at concrete polls and times. -/
theorem getStatus_precedence_witness :
    getStatus 10 ⟨"p", "Q", 0, 20, false⟩ = ("Closed", "red") ∧
    getStatus 30 ⟨"p", "Q", 0, 20, true⟩ = ("Ended", "gray") ∧
    getStatus 10 ⟨"p", "Q", 0, 20, true⟩ = ("Active", "green") :=
  ⟨(getStatus_precedence 10 ⟨"p", "Q", 0, 20, false⟩).1 rfl,
   (getStatus_precedence 30 ⟨"p", "Q", 0, 20, true⟩).2.1 rfl (by decide),
   (getStatus_precedence 10 ⟨"p", "Q", 0, 20, true⟩).2.2 rfl (by decide)⟩

/-- C6 counterexample: on a non-success `/login` response whose body carries a
`message` field but no `error` field, `handleSubmit` surfaces the generic
status fallback, not the server-supplied message. -/
theorem errExtraction_skips_message_cex :
    (handleSubmitAuth false ⟨"", false⟩
        (.resolve ⟨false, 400, none, some "Invalid credentials", none⟩)).message.text =
      "HTTP error! status: 400" ∧
    (handleSubmitAuth false ⟨"", false⟩
        (.resolve ⟨false, 400, none, some "Invalid credentials", none⟩)).message.text ≠
      "Invalid credentials" := by
  constructor
  · rfl
  · decide

/-- C6 (amended): `handleManageAction` surfaces errors with the priority
server `error` field, then server `message` field, then an action-keyed
generic fallback; `AuthPage.handleSubmit` surfaces the server `error` field
if present but otherwise falls back directly to a status-keyed generic
string, ignoring any server `message` field. -/
theorem errExtraction_policy :
    ∀ (s : TabState) (action e m : String) (prev : Msg) (status : Nat)
      (pay : ResultsData) (u : Option User),
      e ≠ "" → m ≠ "" →
      (handleManageAction s action (.resolve ⟨false, some e, some m, pay⟩)).message.text = e ∧
      (handleManageAction s action (.resolve ⟨false, none, some m, pay⟩)).message.text = m ∧
      (handleManageAction s action (.resolve ⟨false, none, none, pay⟩)).message.text =
        ("Failed to " ++ action ++ " poll.") ∧
      (handleSubmitAuth false prev (.resolve ⟨false, status, some e, some m, u⟩)).message.text = e ∧
      (handleSubmitAuth false prev (.resolve ⟨false, status, none, some m, u⟩)).message.text =
        ("HTTP error! status: " ++ toString status) := by
  intro s action e m prev status pay u he hm
  refine ⟨?_, ?_, ?_, ?_, ?_⟩
  · simp [handleManageAction, jsOr, he]
  · simp [handleManageAction, jsOr, hm]
  · simp [handleManageAction, jsOr]
  · simp [handleSubmitAuth, jsOr, he]
  · simp [handleSubmitAuth, jsOr]

/-- Witness for the amended C6 at concrete inputs. -/
theorem errExtraction_policy_witness :
    (handleManageAction
        ⟨"creator", ⟨"", false⟩, "", "", "", none, "p1", "c1", none, "", "", none, none, ""⟩
        "end" (.resolve ⟨false, none, some "Poll not found", ⟨"", [], 0, false⟩⟩)).message.text =
      "Poll not found" ∧
    (handleSubmitAuth false ⟨"", false⟩
        (.resolve ⟨false, 401, none, some "Poll not found", none⟩)).message.text =
      ("HTTP error! status: " ++ toString 401) := by
  have h := errExtraction_policy
    ⟨"creator", ⟨"", false⟩, "", "", "", none, "p1", "c1", none, "", "", none, none, ""⟩
    "end" "boom" "Poll not found" ⟨"", false⟩ 401 ⟨"", [], 0, false⟩ none
    (by decide) (by decide)
  exact ⟨h.2.1, h.2.2.2.2⟩

/-- C7 counterexample: a present but malformed stored session does not leave
the Session empty with view home — `JSON.parse` throws and the startup effect
fails with an uncaught exception. -/
theorem restore_malformed_cex :
    startupRestore .malformed ≠ Except.ok ⟨none, "home"⟩ ∧
    uncaughtFailure (startupRestore .malformed) = true := by
  constructor
  · intro h
    exact Except.noConfusion h
  · rfl

/-- C7 (amended): at startup, an absent stored session leaves the Session
empty with initial view home; a present, well-formed one populates the
Session and sets the view to the role dashboard (`creatorDashboard` for role
creator, `voterDashboard` otherwise); but a present malformed value is not
handled — `JSON.parse` throws inside the startup effect and the exception
escapes uncaught instead of falling back to home. -/
theorem startupRestore_spec :
    startupRestore .absent = .ok ⟨none, "home"⟩ ∧
    (∀ u : User, startupRestore (.wellFormed u) =
      .ok ⟨some u, if u.role = "creator" then "creatorDashboard" else "voterDashboard"⟩) ∧
    uncaughtFailure (startupRestore .malformed) = true := by
  refine ⟨rfl, ?_, rfl⟩
  intro u
  rfl

/-- C8 counterexample: a network failure of the creator poll-list fetch or the
analytics fetch is not caught at the controller boundary — it escapes as an
unhandled rejection. -/
theorem fetch_uncaught_cex :
    uncaughtFailure (fetchPollsEffect (.reject "TypeError: Failed to fetch")) = true ∧
    uncaughtFailure (fetchAnalyticsEffect (.reject "TypeError: Failed to fetch")) = true :=
  ⟨rfl, rfl⟩

/-- C8 (amended): the form-submission controllers (auth submit, tab-app
access/vote/manage, voter-dashboard fetch/vote) catch every network failure at
the controller boundary and render it inline in their Message slot, but
`fetchPolls` and `fetchAnalytics` have no catch: a network failure there
propagates out of the controller as an unhandled rejection. -/
theorem controller_error_boundaries :
    ∀ (e : String) (s : TabState) (sv : VoterDashState) (isSignup : Bool)
      (prev : Msg) (rr : FetchOutcome ResultsResp),
      uncaughtFailure (fetchPollsEffect (.reject e)) = true ∧
      uncaughtFailure (fetchAnalyticsEffect (.reject e)) = true ∧
      (handleSubmitAuth isSignup prev (.reject e)).message = ⟨e, true⟩ ∧
      (handleVoteTab s (.reject e)).message =
        (if s.selectedOption = "" then ⟨"Please select an option to vote.", true⟩
         else ⟨e, true⟩) ∧
      (handleVoteVD sv (.reject e)).message = ⟨e, true⟩ ∧
      (handleAccessPoll s (.reject e) rr).1.message = ⟨e, true⟩ ∧
      (handleFetchPoll sv (.reject e)).1.message = ⟨e, true⟩ ∧
      (handleManageAction s "end" (.reject e)).message = ⟨e, true⟩ := by
  intro e s sv isSignup prev rr
  refine ⟨rfl, rfl, rfl, ?_, rfl, rfl, rfl, rfl⟩
  by_cases hsel : s.selectedOption = "" <;> simp [handleVoteTab, hsel]

/-- C9: while a user with role voter is logged in, the rendered screen is the
VoterDashboard regardless of the current page value, and no `navigateTo`
request changes that. -/
theorem voter_always_voterDashboard :
    ∀ (s : AppState) (u : User) (newPage : String) (pid : Option String),
      s.user = some u → u.role = "voter" →
      renderPage s.user s.page = Screen.voterDashboard ∧
      renderPage (navigateTo s newPage pid).user (navigateTo s newPage pid).page =
        Screen.voterDashboard := by
  intro s u newPage pid hu hrole
  have hnc : ¬ u.role = "creator" := by rw [hrole]; decide
  constructor
  · rw [hu]
    simp [renderPage, hnc, hrole]
  · rw [show (navigateTo s newPage pid).user = s.user from rfl, hu]
    simp [renderPage, hnc, hrole]

/-- Witness for C9 at a concrete logged-in voter and navigation request. -/
theorem voter_always_voterDashboard_witness :
    renderPage (some ⟨"bob", "voter"⟩) "home" = Screen.voterDashboard ∧
    renderPage (navigateTo ⟨"home", some ⟨"bob", "voter"⟩, none⟩ "analytics" (some "p1")).user
        (navigateTo ⟨"home", some ⟨"bob", "voter"⟩, none⟩ "analytics" (some "p1")).page =
      Screen.voterDashboard :=
  voter_always_voterDashboard ⟨"home", some ⟨"bob", "voter"⟩, none⟩ ⟨"bob", "voter"⟩
    "analytics" (some "p1") rfl rfl

/-- C10: every `handleSetView` clears the Message, `creatorInfo`,
`creatorResults`, `voterResults` and `pollData`, and sets the new view, but
never resets `selectedOption`; the selected option also persists through a
subsequent poll access. -/
theorem setView_clears_but_keeps_selection :
    ∀ (s : TabState) (v : String) (st : FetchOutcome PollStatusResp)
      (rr : FetchOutcome ResultsResp),
      (handleSetView s v).message = ⟨"", false⟩ ∧
      (handleSetView s v).creatorInfo = none ∧
      (handleSetView s v).creatorResults = none ∧
      (handleSetView s v).voterResults = none ∧
      (handleSetView s v).pollData = none ∧
      (handleSetView s v).view = v ∧
      (handleSetView s v).selectedOption = s.selectedOption ∧
      (handleAccessPoll s st rr).1.selectedOption = s.selectedOption := by
  intro s v st rr
  refine ⟨rfl, rfl, rfl, rfl, rfl, rfl, rfl, ?_⟩
  cases st with
  | reject e => rfl
  | resolve d =>
    by_cases hok : d.ok = false
    · simp [handleAccessPoll, hok, clearMessages]
    · by_cases hact : d.is_active
      · simp [handleAccessPoll, hok, hact, clearMessages]
      · cases rr with
        | reject e => simp [handleAccessPoll, hok, hact, clearMessages]
        | resolve r2 =>
          by_cases h2 : r2.ok = false <;>
            simp [handleAccessPoll, hok, hact, h2, clearMessages]

end Dapp
